import Mathlib

/-!
Verification of the x402 payment negotiation and wallet library
(`langchain_x402`: `wallet.py`, `tool.py`, `eip3009.py`).

The Python code stores budgets and cumulative spend in IEEE-754 binary64
floats and converts units to USD through Python `Decimal` (28 significant
digits, round half to even).  Both roundings are modelled exactly over ℚ:
`fl` is round-to-nearest-even to a 53-bit significand (binary64 with
unbounded exponent range, which agrees with binary64 on every normal-range
value appearing below), and `round28` is the `Decimal` context rounding to
28 significant decimal digits.  An exact-arithmetic variant of the wallet
(suffix `E`) is also defined to state which properties hold when the float
rounding is elided.
-/

/-- Round a rational to the nearest integer, ties to even. -/
def roundHalfEven (q : ℚ) : ℤ :=
  let f : ℤ := ⌊q⌋
  let r : ℚ := q - f
  if r < 1/2 then f
  else if 1/2 < r then f + 1
  else if f % 2 = 0 then f else f + 1

theorem roundHalfEven_intCast (n : ℤ) : roundHalfEven (n : ℚ) = n := by
  simp [roundHalfEven]

theorem roundHalfEven_of_lt (q : ℚ) (n : ℤ) (h1 : (n : ℚ) ≤ q) (h2 : q - n < 1/2) :
    roundHalfEven q = n := by
  have hf : ⌊q⌋ = n := by
    rw [Int.floor_eq_iff]
    constructor
    · exact_mod_cast h1
    · linarith
  simp only [roundHalfEven, hf]
  rw [if_pos h2]

theorem roundHalfEven_of_gt (q : ℚ) (n : ℤ) (h1 : 1/2 < q - n) (h2 : q - n < 1) :
    roundHalfEven q = n + 1 := by
  have hf : ⌊q⌋ = n := by
    rw [Int.floor_eq_iff]
    constructor
    · linarith
    · linarith
  simp only [roundHalfEven, hf]
  rw [if_neg (by linarith), if_pos h1]

theorem roundHalfEven_tie_odd (q : ℚ) (n : ℤ) (h1 : q - n = 1/2) (hodd : n % 2 = 1) :
    roundHalfEven q = n + 1 := by
  have hf : ⌊q⌋ = n := by
    rw [Int.floor_eq_iff]
    constructor
    · linarith
    · linarith
  simp only [roundHalfEven, hf]
  rw [if_neg (by rw [h1]; norm_num), if_neg (by rw [h1]; norm_num), if_neg (by omega)]

/-- Scale a positive rational by powers of 2 into the binade `[2^52, 2^53)`,
tracking the exponent adjustment (fuel-bounded so the kernel can unfold it). -/
def normLoop2 : ℕ → ℚ → ℤ → ℚ × ℤ
  | 0, m, e => (m, e)
  | fuel+1, m, e =>
    if m < 2^52 then normLoop2 fuel (2*m) (e-1)
    else if 2^53 ≤ m then normLoop2 fuel (m/2) (e+1)
    else (m, e)

theorem normLoop2_reach : ∀ (j fuel : ℕ) (m : ℚ) (e : ℤ), j ≤ fuel → 0 < m →
    2^52 ≤ m * 2^j → m * 2^j < 2^53 →
    normLoop2 fuel m e = (m * 2^j, e - (j : ℤ)) := by
  intro j
  induction j with
  | zero =>
    intro fuel m e _ _ h1 h2
    rw [pow_zero, mul_one] at h1 h2
    cases fuel with
    | zero => simp [normLoop2]
    | succ f =>
      rw [normLoop2, if_neg (not_lt.mpr h1), if_neg (not_le.mpr h2)]
      simp
  | succ j ih =>
    intro fuel m e hj hm h1 h2
    obtain ⟨f, rfl⟩ : ∃ f, fuel = f + 1 := ⟨fuel - 1, by omega⟩
    have hXY : m * 2^(j+1) = 2 * m * 2^j := by ring
    have hm52 : m < 2^52 := by
      have h2j : (1:ℚ) ≤ 2^j := one_le_pow₀ (by norm_num)
      nlinarith
    rw [normLoop2, if_pos hm52]
    rw [ih f (2*m) (e-1) (by omega) (by positivity)
      (by linarith) (by linarith)]
    simp only [Prod.mk.injEq]
    refine ⟨by ring, by push_cast; ring⟩

/-- Auxiliary for `fl`: round a positive rational to 53 significant bits. -/
def flPos (q : ℚ) : ℚ :=
  let p := normLoop2 1200 q 0
  (roundHalfEven p.1 : ℚ) * (2 : ℚ)^p.2

/-- Binary64 rounding: round to nearest, ties to even, 53-bit significand
(unbounded exponent, which matches IEEE-754 binary64 on all normal-range
values used in this development).  Python `float` arithmetic performs this
rounding after every operation. -/
def fl (q : ℚ) : ℚ :=
  if q = 0 then 0
  else if q < 0 then -flPos (-q) else flPos q

theorem fl_eval (q : ℚ) (j : ℕ) (hj : j ≤ 1200) (hq : 0 < q)
    (h1 : 2^52 ≤ q * 2^j) (h2 : q * 2^j < 2^53) :
    fl q = (roundHalfEven (q * 2^j) : ℚ) / 2^j := by
  rw [fl, if_neg hq.ne', if_neg (not_lt.mpr hq.le), flPos]
  rw [normLoop2_reach j 1200 q 0 hj hq h1 h2]
  rw [zero_sub, zpow_neg, zpow_natCast, div_eq_mul_inv]

theorem fl_zero : fl 0 = 0 := by simp [fl]

/-- Scale a positive rational by powers of 10 into `[10^27, 10^28)`,
tracking the decimal exponent adjustment (fuel-bounded). -/
def dnorm : ℕ → ℚ → ℤ → ℚ × ℤ
  | 0, m, e => (m, e)
  | fuel+1, m, e =>
    if m < 10^27 then dnorm fuel (10*m) (e-1)
    else if 10^28 ≤ m then dnorm fuel (m/10) (e+1)
    else (m, e)

theorem dnorm_reach : ∀ (j fuel : ℕ) (m : ℚ) (e : ℤ), j ≤ fuel → 0 < m →
    10^27 ≤ m * 10^j → m * 10^j < 10^28 →
    dnorm fuel m e = (m * 10^j, e - (j : ℤ)) := by
  intro j
  induction j with
  | zero =>
    intro fuel m e _ _ h1 h2
    rw [pow_zero, mul_one] at h1 h2
    cases fuel with
    | zero => simp [dnorm]
    | succ f =>
      rw [dnorm, if_neg (not_lt.mpr h1), if_neg (not_le.mpr h2)]
      simp
  | succ j ih =>
    intro fuel m e hj hm h1 h2
    obtain ⟨f, rfl⟩ : ∃ f, fuel = f + 1 := ⟨fuel - 1, by omega⟩
    have hXY : m * 10^(j+1) = 10 * m * 10^j := by ring
    have hm27 : m < 10^27 := by
      have h2j : (1:ℚ) ≤ 10^j := one_le_pow₀ (by norm_num)
      nlinarith
    rw [dnorm, if_pos hm27]
    rw [ih f (10*m) (e-1) (by omega) (by positivity)
      (by linarith) (by linarith)]
    simp only [Prod.mk.injEq]
    refine ⟨by ring, by push_cast; ring⟩

theorem dnorm_preserve : ∀ (fuel : ℕ) (m : ℚ) (e : ℤ),
    (dnorm fuel m e).1 * (10:ℚ)^((dnorm fuel m e).2) = m * (10:ℚ)^e := by
  intro fuel
  induction fuel with
  | zero => intro m e; rfl
  | succ f ih =>
    intro m e
    rw [dnorm]
    by_cases hlo : m < 10^27
    · rw [if_pos hlo, ih (10*m) (e-1)]
      rw [zpow_sub_one₀ (by norm_num : (10:ℚ) ≠ 0)]
      ring
    · rw [if_neg hlo]
      by_cases hhi : (10:ℚ)^28 ≤ m
      · rw [if_pos hhi, ih (m/10) (e+1)]
        rw [zpow_add_one₀ (by norm_num : (10:ℚ) ≠ 0)]
        ring
      · rw [if_neg hhi]

theorem dnorm_int : ∀ (fuel : ℕ) (a k : ℕ) (e : ℤ), 0 < a → a < 10^28 →
    10^(27+k) ≤ a * 10^fuel →
    ∃ b : ℕ, (dnorm fuel ((a:ℚ)/10^k) e).1 = (b:ℚ) := by
  intro fuel
  induction fuel with
  | zero =>
    intro a k e _ h28 hbig
    rw [pow_zero, mul_one] at hbig
    have hk : k = 0 := by
      by_contra hne
      have : 10^28 ≤ 10^(27+k) := Nat.pow_le_pow_right (by norm_num) (by omega)
      omega
    subst hk
    exact ⟨a, by simp [dnorm]⟩
  | succ f ih =>
    intro a k e ha h28 hbig
    have hcast : ((10:ℚ)^28 : ℚ) > (a:ℚ) := by exact_mod_cast h28
    have hken : (1:ℚ) ≤ 10^k := one_le_pow₀ (by norm_num)
    have hda : (a:ℚ)/10^k ≤ (a:ℚ) := by
      apply div_le_self (by positivity)
      exact hken
    have hnothi : ¬ (10:ℚ)^28 ≤ (a:ℚ)/10^k := by
      push_neg
      exact lt_of_le_of_lt hda hcast
    rw [dnorm]
    by_cases hlo : (a:ℚ)/10^k < 10^27
    · rw [if_pos hlo]
      cases k with
      | zero =>
        have ha27 : a < 10^27 := by
          have : (a:ℚ) < 10^27 := by simpa using hlo
          exact_mod_cast this
        have heq : (10:ℚ) * ((a:ℚ)/10^0) = ((10*a : ℕ):ℚ)/10^0 := by
          push_cast
          norm_num
        rw [heq]
        apply ih (10*a) 0 (e-1) (by omega) (by omega)
        calc 10^(27+0) ≤ a * 10^(f+1) := by simpa using hbig
        _ = 10*a*10^f := by ring
      | succ k0 =>
        have heq : (10:ℚ) * ((a:ℚ)/10^(k0+1)) = (a:ℚ)/10^k0 := by
          rw [pow_succ]
          field_simp
          ring
        rw [heq]
        apply ih a k0 (e-1) ha h28
        have : 10 ^ (27 + k0 + 1) ≤ a * 10 ^ (f + 1) := by
          calc 10 ^ (27 + k0 + 1) = 10^(27 + (k0+1)) := by ring_nf
          _ ≤ a * 10^(f+1) := hbig
        have hgoal : 10 ^ (27 + k0) * 10 ≤ (a * 10^f) * 10 := by
          calc 10 ^ (27 + k0) * 10 = 10 ^ (27 + k0 + 1) := by ring
          _ ≤ a * 10 ^ (f + 1) := this
          _ = (a * 10^f) * 10 := by ring
        omega
    · rw [if_neg hlo, if_neg hnothi]
      have hk : k = 0 := by
        by_contra hne
        push_neg at hlo
        have h1 : (10:ℚ)^27 * 10^k ≤ (a:ℚ) := by
          calc (10:ℚ)^27 * 10^k ≤ ((a:ℚ)/10^k) * 10^k := by
                apply mul_le_mul_of_nonneg_right hlo (by positivity)
          _ = (a:ℚ) := by field_simp
        have h2 : ((10:ℚ)^27 * 10^1 : ℚ) ≤ (10:ℚ)^27 * 10^k := by
          apply mul_le_mul_of_nonneg_left _ (by positivity)
          apply pow_le_pow_right₀ (by norm_num)
          omega
        have h3 : ((10:ℚ)^28 : ℚ) ≤ (a:ℚ) := by
          calc ((10:ℚ)^28 : ℚ) = (10:ℚ)^27 * 10^1 := by norm_num
          _ ≤ (10:ℚ)^27 * 10^k := h2
          _ ≤ (a:ℚ) := h1
        linarith
      subst hk
      exact ⟨a, by norm_num⟩

/-- Decimal context rounding on positive rationals: round to 28 significant
decimal digits, half to even (Python `decimal` default context). -/
def round28pos (q : ℚ) : ℚ :=
  let p := dnorm 1200 q 0
  (roundHalfEven p.1 : ℚ) * (10 : ℚ)^p.2

/-- Result of a Python `Decimal` arithmetic operation: the exact rational
result rounded to the context precision of 28 significant digits,
ROUND_HALF_EVEN (the default context used by `wallet.py`). -/
def round28 (q : ℚ) : ℚ :=
  if q = 0 then 0
  else if q < 0 then -round28pos (-q) else round28pos q

theorem round28_eq_self (a k : ℕ) (ha : 0 < a) (h28 : a < 10^28) (hk : k ≤ 1000) :
    round28 ((a:ℚ)/10^k) = (a:ℚ)/10^k := by
  have hq : (0:ℚ) < (a:ℚ)/10^k := by positivity
  rw [round28, if_neg hq.ne', if_neg (not_lt.mpr hq.le), round28pos]
  obtain ⟨b, hb⟩ := dnorm_int 1200 a k 0 ha h28 (by
    calc 10^(27+k) ≤ 10^1200 := Nat.pow_le_pow_right (by norm_num) (by omega)
    _ = 1 * 10^1200 := by omega
    _ ≤ a * 10^1200 := Nat.mul_le_mul_right _ ha)
  have hpres := dnorm_preserve 1200 ((a:ℚ)/10^k) 0
  rw [hb] at hpres ⊢
  have hbz : roundHalfEven ((b:ℕ):ℚ) = (b:ℤ) := by
    have := roundHalfEven_intCast (b:ℤ)
    rwa [Int.cast_natCast] at this
  rw [hbz]
  rw [zpow_zero, mul_one] at hpres
  rw [Int.cast_natCast]
  exact hpres

theorem round28_zero : round28 0 = 0 := by simp [round28]

/-- Python `int(...)` applied to a `Decimal`: truncation toward zero. -/
def ratTrunc (q : ℚ) : ℤ :=
  if q < 0 then ⌈q⌉ else ⌊q⌋

/-- `X402Wallet.units_to_usd` (wallet.py:101): `Decimal(units) / Decimal(1_000_000)`,
the quotient correctly rounded to the `Decimal` context's 28 significant digits. -/
def units_to_usd (units : ℤ) : ℚ :=
  round28 ((units : ℚ) / 10^6)

/-- `X402Wallet.usd_to_units` (wallet.py:115): `int(Decimal(str(usd)) * Decimal(1_000_000))`.
The argument is modelled by the exact decimal value that `Decimal(str(usd))`
produces; the product is context-rounded to 28 significant digits and then
truncated toward zero by `int(...)`. -/
def usd_to_units (usd : ℚ) : ℤ :=
  ratTrunc (round28 (usd * 10^6))

/-- USDC contract addresses by network (eip3009.py `USDC_CONTRACTS`). -/
def USDC_CONTRACTS : List (String × String) :=
  [("eip155:8453", "0x833589fCD6eDb6E08f4c7C32D4f71b54bdA02913"),
   ("eip155:84532", "0x036CbD53842c5426634e7929541eC2318f3dCF7e"),
   ("eip155:1", "0xA0b86991c6218b36c1d19D4a2e9Eb0cE3606eB48"),
   ("eip155:11155111", "0x1c7D4B196Cb0C7B01d064914d0da28F12c7d0b86"),
   ("eip155:5042002", "0x3600000000000000000000000000000000000000"),
   ("base-mainnet", "0x833589fCD6eDb6E08f4c7C32D4f71b54bdA02913"),
   ("base-sepolia", "0x036CbD53842c5426634e7929541eC2318f3dCF7e"),
   ("ethereum-mainnet", "0xA0b86991c6218b36c1d19D4a2e9Eb0cE3606eB48"),
   ("ethereum-sepolia", "0x1c7D4B196Cb0C7B01d064914d0da28F12c7d0b86"),
   ("arc-testnet", "0x3600000000000000000000000000000000000000")]

/-- Chain IDs by network (eip3009.py `CHAIN_IDS`). -/
def CHAIN_IDS : List (String × ℕ) :=
  [("eip155:8453", 8453), ("eip155:84532", 84532), ("eip155:1", 1),
   ("eip155:11155111", 11155111), ("eip155:5042002", 5042002),
   ("base-mainnet", 8453), ("base-sepolia", 84532), ("ethereum-mainnet", 1),
   ("ethereum-sepolia", 11155111), ("arc-testnet", 5042002)]

/-- EIP-3009 `TransferWithAuthorization` parameters (eip3009.py).  The 32-byte
nonce is modelled by its hex string. -/
structure TransferAuthorization where
  from_address : String
  to_address : String
  value : ℤ
  valid_after : ℤ
  valid_before : ℤ
  nonce : String
deriving DecidableEq

/-- EIP-712 typed payload built by `build_eip712_message` (eip3009.py:79):
domain binding (chain id, verifying USDC contract) plus the authorization
fields. -/
structure Eip712Message where
  chainId : ℕ
  verifyingContract : String
  from_address : String
  to_address : String
  value : ℤ
  valid_after : ℤ
  valid_before : ℤ
  nonce : String
deriving DecidableEq

/-- `build_eip712_message` (eip3009.py:79): resolves the network's USDC
contract and chain id; `none` models the `ValueError("Unsupported network")`
raised when either lookup fails. -/
def build_eip712_message (auth : TransferAuthorization) (network : String) :
    Option Eip712Message :=
  match List.lookup network USDC_CONTRACTS, List.lookup network CHAIN_IDS with
  | some usdc, some chainId =>
    some ⟨chainId, usdc, auth.from_address, auth.to_address,
          auth.value, auth.valid_after, auth.valid_before, auth.nonce⟩
  | _, _ => none

/-- Modelled from the spec: SigningPort (§4.3) — the elliptic-curve signing
primitive (`eth_account.Account.sign_typed_data`) is an external capability
whose internal arithmetic is out of scope; it is modelled as an opaque
deterministic encoding of the private key and the signed typed message. -/
def ecSign (privateKey : String) (m : Eip712Message) : String :=
  String.intercalate "," ["sig", privateKey, toString m.chainId,
    m.verifyingContract, m.from_address, m.to_address, toString m.value,
    toString m.valid_after, toString m.valid_before, m.nonce]

/-- Normalize a private key to have a `0x` prefix (eip3009.py:151, 182). -/
def normalizeKey (privateKey : String) : String :=
  if privateKey.startsWith "0x" then privateKey else "0x" ++ privateKey

/-- `sign_transfer_authorization` (eip3009.py:134): normalize the key, build
the EIP-712 message (failing on an unsupported network), and sign it. -/
def sign_transfer_authorization (private_key : String)
    (auth : TransferAuthorization) (network : String) : Option String :=
  (build_eip712_message auth network).map (ecSign (normalizeKey private_key))

/-- Modelled from the spec: SigningPort (§4.3) — `get_wallet_address`
(eip3009.py:172) derives the checksummed address from the private key via
`eth_account`; modelled as an opaque deterministic function of the
normalized key. -/
def get_wallet_address (private_key : String) : String :=
  "addr," ++ normalizeKey private_key

/-- `PaymentRecord` (wallet.py:23).  `timestamp` is the `time.time()` value,
supplied to `sign_payment` as an explicit clock argument; `amount_usd` is
`Decimal(str(amount_usd))`, modelled by the rational value of the float
amount itself (no claim depends on the re-decimalized shortest-repr value). -/
structure PaymentRecord where
  timestamp : ℚ
  to_address : String
  amount_usd : ℚ
  amount_units : ℤ
  network : String
  nonce : String
  signature : String
  resource_url : String
deriving DecidableEq

/-- `X402Wallet` (wallet.py:37): identity (private key, network), the float
budget ceiling `budget_usd`, the float cumulative spend `_spent_usd`, and the
ordered payment history `_payments`. -/
structure X402Wallet where
  private_key : String
  network : String
  budget_usd : ℚ
  spent_usd : ℚ
  payments : List PaymentRecord
deriving DecidableEq

/-- `X402Wallet.address` (wallet.py:67): derived from the private key. -/
def X402Wallet.address (w : X402Wallet) : String :=
  get_wallet_address w.private_key

/-- `X402Wallet.remaining_usd` (wallet.py:79): `max(0.0, budget_usd - _spent_usd)`
with the subtraction performed in binary64. -/
def X402Wallet.remaining_usd (w : X402Wallet) : ℚ :=
  max 0 (fl (w.budget_usd - w.spent_usd))

/-- `X402Wallet.can_afford` (wallet.py:89): `remaining_usd >= amount_usd`. -/
def X402Wallet.can_afford (w : X402Wallet) (amount_usd : ℚ) : Prop :=
  amount_usd ≤ w.remaining_usd

instance (w : X402Wallet) (a : ℚ) : Decidable (w.can_afford a) :=
  inferInstanceAs (Decidable (a ≤ w.remaining_usd))

/-- Failure raised by `sign_payment`: either the `ValueError("Budget
exceeded: need $..., have $... remaining")` carrying the needed amount and
the remaining budget (wallet.py:152), or the `ValueError("Unsupported
network")` propagated from eip3009 signing. -/
inductive SignError where
  | budgetExceeded (needed remaining : ℚ)
  | unsupportedNetwork (network : String)
deriving DecidableEq

/-- `X402Wallet.sign_payment` (wallet.py:127).  The random nonce
(`generate_nonce()`, hex form) and the current time are supplied as explicit
arguments.  `amount_usd = float(units_to_usd(amount_units))` is the Decimal
quotient coerced to binary64; on success the spend is accumulated in
binary64 (`_spent_usd += amount_usd`) and a `PaymentRecord` is appended.
Returns the wallet state after the call together with the outcome. -/
def X402Wallet.sign_payment (w : X402Wallet) (to_address : String)
    (amount_units : ℤ) (valid_before : ℤ) (resource_url : String)
    (nonceHex : String) (now : ℚ) :
    X402Wallet × Except SignError (String × String) :=
  let amount_usd := fl (units_to_usd amount_units)
  if ¬ w.can_afford amount_usd then
    (w, .error (.budgetExceeded amount_usd w.remaining_usd))
  else
    let auth : TransferAuthorization :=
      ⟨w.address, to_address, amount_units, 0, valid_before, nonceHex⟩
    match sign_transfer_authorization w.private_key auth w.network with
    | none => (w, .error (.unsupportedNetwork w.network))
    | some signature =>
      ({ w with
          spent_usd := fl (w.spent_usd + amount_usd),
          payments := w.payments ++
            [⟨now, to_address, amount_usd, amount_units, w.network,
              nonceHex, signature, resource_url⟩] },
        .ok (signature, nonceHex))

/-- `X402Wallet.reset_budget` (wallet.py:210): replace the budget ceiling if
a new one is given, zero the spend, clear the history. -/
def X402Wallet.reset_budget (w : X402Wallet) (new_budget_usd : Option ℚ) :
    X402Wallet :=
  { w with
      budget_usd := match new_budget_usd with
        | some b => b
        | none => w.budget_usd,
      spent_usd := 0,
      payments := [] }

/-- Exact-arithmetic reading of `remaining_usd`: the binary64 rounding of the
subtraction is elided.  Used to state the amended versions of the claims
that assume exact decimal arithmetic. -/
def X402Wallet.remaining_usdE (w : X402Wallet) : ℚ :=
  max 0 (w.budget_usd - w.spent_usd)

/-- Exact-arithmetic reading of `can_afford`. -/
def X402Wallet.can_affordE (w : X402Wallet) (amount_usd : ℚ) : Prop :=
  amount_usd ≤ w.remaining_usdE

instance (w : X402Wallet) (a : ℚ) : Decidable (w.can_affordE a) :=
  inferInstanceAs (Decidable (a ≤ w.remaining_usdE))

/-- Exact-arithmetic reading of `sign_payment`: identical control flow, but
the float coercion of the amount and the float accumulation of the spend are
elided (the conversion itself remains the Decimal division of the source). -/
def X402Wallet.sign_paymentE (w : X402Wallet) (to_address : String)
    (amount_units : ℤ) (valid_before : ℤ) (resource_url : String)
    (nonceHex : String) (now : ℚ) :
    X402Wallet × Except SignError (String × String) :=
  let amount_usd := units_to_usd amount_units
  if ¬ w.can_affordE amount_usd then
    (w, .error (.budgetExceeded amount_usd w.remaining_usdE))
  else
    let auth : TransferAuthorization :=
      ⟨w.address, to_address, amount_units, 0, valid_before, nonceHex⟩
    match sign_transfer_authorization w.private_key auth w.network with
    | none => (w, .error (.unsupportedNetwork w.network))
    | some signature =>
      ({ w with
          spent_usd := w.spent_usd + amount_usd,
          payments := w.payments ++
            [⟨now, to_address, amount_usd, amount_units, w.network,
              nonceHex, signature, resource_url⟩] },
        .ok (signature, nonceHex))

/-- Heap model for the `payments` property (wallet.py:84): Python list
objects live in a store indexed by references; the wallet's `_payments`
list lives at `paymentsRef`, scalar fields (`_spent_usd`) are immutable
values and cannot alias. -/
structure WalletHeap where
  spent_usd : ℚ
  paymentsRef : ℕ
  store : ℕ → List PaymentRecord
  next : ℕ

/-- `X402Wallet.payments` (wallet.py:84): `return self._payments.copy()` —
allocates a fresh list object holding a copy of the history and returns a
reference to it. -/
def WalletHeap.paymentsAcc (s : WalletHeap) : WalletHeap × ℕ :=
  ({ s with
      store := Function.update s.store s.next (s.store s.paymentsRef),
      next := s.next + 1 },
    s.next)

/-- A caller-side in-place mutation of the list object at reference `r`
(append, remove, clear, ... — any transformation of the list contents). -/
def WalletHeap.mutate (s : WalletHeap) (r : ℕ)
    (f : List PaymentRecord → List PaymentRecord) : WalletHeap :=
  { s with store := Function.update s.store r (f (s.store r)) }

/-- Decoded payment requirement (the base64+JSON dict read from the
PAYMENT-REQUIRED header in tool.py): every field the negotiation reads is
optional in the JSON payload. -/
structure PaymentRequirement where
  x402Version : Option ℤ
  scheme : Option String
  network : Option String
  payTo : Option String
  maxAmountRequired : Option ℤ
  validUntil : Option ℤ
deriving DecidableEq

/-- An HTTP response as seen by the negotiation (the transport is an
external capability).  `paymentRequired none` means no non-empty
PAYMENT-REQUIRED / X-PAYMENT-REQUIRED header was present (tool.py:146
treats an empty header value as absent); `some none` means the header was
present but failed base64/JSON decoding; `some (some req)` is the decoded
requirement. -/
structure HttpResponse where
  status : ℕ
  text : String
  paymentRequired : Option (Option PaymentRequirement)

/-- Outcome of `_run`/`_arun`, one constructor per distinct return string of
tool.py, carrying the data interpolated into that string. -/
inductive ToolOutcome where
  | httpError (status : ℕ) (text : String)
  | ok (text : String)
  | missingPaymentHeader
  | parseFailure
  | networkMismatch (apiNetwork walletNetwork : String)
  | priceRejected (amount_usd limit : ℚ) (payTo : Option String)
  | budgetExceeded (amount_usd remaining : ℚ)
  | paymentDeclined (amount_usd : ℚ) (payTo : Option String)
  | signingFailed (e : SignError)
  | postPaymentError (status : ℕ) (text : String)
deriving DecidableEq

/-- `effective_max = max_price_usd or self.wallet.remaining_usd`
(tool.py:173): Python `or` falls back to the remaining budget when
`max_price_usd` is `None` — or falsy, i.e. `0`/`0.0`. -/
def effective_max (w : X402Wallet) (max_price_usd : Option ℚ) : ℚ :=
  match max_price_usd with
  | some m => if m = 0 then w.remaining_usd else m
  | none => w.remaining_usd

/-- `X402PaymentTool._run` (tool.py:105).  The HTTP transport is an external
capability: `response` is the reply to the initial request and
`paidResponse` the reply to the retried request (`method`, `body` and extra
`headers` are only forwarded to the transport and do not influence the
negotiation).  The nonce drawn by `generate_nonce()` and the clock are
explicit arguments.  A missing `payTo` is forwarded to signing as the empty
string (in Python a `None` recipient would fault inside the external
signing library, a path no claim exercises).  Returns the outcome and the
wallet state after the call. -/
def X402PaymentTool.run (wallet : X402Wallet) (auto_pay : Bool) (url : String)
    (max_price_usd : Option ℚ) (response paidResponse : HttpResponse)
    (nonceHex : String) (now : ℚ) : ToolOutcome × X402Wallet :=
  if response.status ≠ 402 then
    if 400 ≤ response.status then (.httpError response.status response.text, wallet)
    else (.ok response.text, wallet)
  else
    match response.paymentRequired with
    | none => (.missingPaymentHeader, wallet)
    | some none => (.parseFailure, wallet)
    | some (some req) =>
      let amount_units : ℤ := req.maxAmountRequired.getD 0
      let amount_usd : ℚ := fl (units_to_usd amount_units)
      let pay_to := req.payTo
      let valid_until : ℤ := req.validUntil.getD 0
      let network : String := (req.network.getD "")
      if network ≠ "" ∧ network ≠ wallet.network then
        (.networkMismatch network wallet.network, wallet)
      else if effective_max wallet max_price_usd < amount_usd then
        (.priceRejected amount_usd (effective_max wallet max_price_usd) pay_to, wallet)
      else if ¬ wallet.can_afford amount_usd then
        (.budgetExceeded amount_usd wallet.remaining_usd, wallet)
      else if ¬ auto_pay then
        (.paymentDeclined amount_usd pay_to, wallet)
      else
        match wallet.sign_payment (pay_to.getD "") amount_units valid_until
            url nonceHex now with
        | (w2, .error e) => (.signingFailed e, w2)
        | (w2, .ok _) =>
          if 400 ≤ paidResponse.status then
            (.postPaymentError paidResponse.status paidResponse.text, w2)
          else (.ok paidResponse.text, w2)

/-- `X402PaymentTool._arun` (tool.py:239): the asynchronous variant, a
line-for-line copy of `_run` over the async HTTP client.  The only textual
difference of the source is `_run`'s logging of an optional
PAYMENT-RESPONSE header to the callback manager (tool.py:223-235), which
produces no return value and mutates no state. -/
def X402PaymentTool.arun (wallet : X402Wallet) (auto_pay : Bool) (url : String)
    (max_price_usd : Option ℚ) (response paidResponse : HttpResponse)
    (nonceHex : String) (now : ℚ) : ToolOutcome × X402Wallet :=
  if response.status ≠ 402 then
    if 400 ≤ response.status then (.httpError response.status response.text, wallet)
    else (.ok response.text, wallet)
  else
    match response.paymentRequired with
    | none => (.missingPaymentHeader, wallet)
    | some none => (.parseFailure, wallet)
    | some (some req) =>
      let amount_units : ℤ := req.maxAmountRequired.getD 0
      let amount_usd : ℚ := fl (units_to_usd amount_units)
      let pay_to := req.payTo
      let valid_until : ℤ := req.validUntil.getD 0
      let network : String := (req.network.getD "")
      if network ≠ "" ∧ network ≠ wallet.network then
        (.networkMismatch network wallet.network, wallet)
      else if effective_max wallet max_price_usd < amount_usd then
        (.priceRejected amount_usd (effective_max wallet max_price_usd) pay_to, wallet)
      else if ¬ wallet.can_afford amount_usd then
        (.budgetExceeded amount_usd wallet.remaining_usd, wallet)
      else if ¬ auto_pay then
        (.paymentDeclined amount_usd pay_to, wallet)
      else
        match wallet.sign_payment (pay_to.getD "") amount_units valid_until
            url nonceHex now with
        | (w2, .error e) => (.signingFailed e, w2)
        | (w2, .ok _) =>
          if 400 ≤ paidResponse.status then
            (.postPaymentError paidResponse.status paidResponse.text, w2)
          else (.ok paidResponse.text, w2)

theorem fl_eval_int (q : ℚ) (j : ℕ) (n : ℤ) (hj : j ≤ 1200) (hq : 0 < q)
    (hn : q * 2^j = (n:ℚ)) (h1 : 2^52 ≤ (n:ℚ)) (h2 : (n:ℚ) < 2^53) :
    fl q = (n:ℚ) / 2^j := by
  rw [fl_eval q j hj hq (by rw [hn]; exact h1) (by rw [hn]; exact h2), hn,
    roundHalfEven_intCast]

theorem fl_eval_down (q : ℚ) (j : ℕ) (n : ℤ) (hj : j ≤ 1200) (hq : 0 < q)
    (h1 : 2^52 ≤ q * 2^j) (h2 : q * 2^j < 2^53)
    (hl : (n:ℚ) ≤ q * 2^j) (hr : q * 2^j - n < 1/2) :
    fl q = (n:ℚ) / 2^j := by
  rw [fl_eval q j hj hq h1 h2, roundHalfEven_of_lt _ n hl hr]

theorem fl_eval_up (q : ℚ) (j : ℕ) (n : ℤ) (hj : j ≤ 1200) (hq : 0 < q)
    (h1 : 2^52 ≤ q * 2^j) (h2 : q * 2^j < 2^53)
    (hl : 1/2 < q * 2^j - n) (hr : q * 2^j - n < 1) :
    fl q = ((n:ℚ) + 1) / 2^j := by
  rw [fl_eval q j hj hq h1 h2, roundHalfEven_of_gt _ n hl hr]
  push_cast
  ring

theorem fl_eval_tie_odd (q : ℚ) (j : ℕ) (n : ℤ) (hj : j ≤ 1200) (hq : 0 < q)
    (h1 : 2^52 ≤ q * 2^j) (h2 : q * 2^j < 2^53)
    (ht : q * 2^j - n = 1/2) (hodd : n % 2 = 1) :
    fl q = ((n:ℚ) + 1) / 2^j := by
  rw [fl_eval q j hj hq h1 h2, roundHalfEven_tie_odd _ n ht hodd]
  push_cast
  ring

theorem round28_eval (q : ℚ) (j : ℕ) (hj : j ≤ 1200) (hq : 0 < q)
    (h1 : 10^27 ≤ q * 10^j) (h2 : q * 10^j < 10^28) :
    round28 q = (roundHalfEven (q * 10^j) : ℚ) / 10^j := by
  rw [round28, if_neg hq.ne', if_neg (not_lt.mpr hq.le), round28pos]
  rw [dnorm_reach j 1200 q 0 hj hq h1 h2]
  rw [zero_sub, zpow_neg, zpow_natCast, div_eq_mul_inv]

/-- `units_to_usd` is the exact quotient whenever the numerator is within the
28-significant-digit context precision. -/
theorem units_to_usd_small (a : ℕ) (ha : 0 < a) (h28 : a < 10^28) :
    units_to_usd (a : ℤ) = (a:ℚ)/10^6 := by
  unfold units_to_usd
  rw [Int.cast_natCast]
  exact round28_eq_self a 6 ha h28 (by norm_num)

/-- Outcome shape of a `sign_payment` result: the call returned normally. -/
def signSucceeded : Except SignError (String × String) → Prop
  | .ok _ => True
  | .error _ => False

/-- Characterization of a successful `sign_payment`: when the wallet can
afford the amount and the network is supported, the spend is accumulated in
binary64 and the payment record is appended. -/
theorem sign_payment_ok (w : X402Wallet) (to_address : String)
    (amount_units valid_before : ℤ) (resource_url nonceHex : String) (now : ℚ)
    (a : ℚ) (sig : String)
    (hval : fl (units_to_usd amount_units) = a)
    (hok : w.can_afford a)
    (hsig : sign_transfer_authorization w.private_key
      ⟨w.address, to_address, amount_units, 0, valid_before, nonceHex⟩ w.network
      = some sig) :
    w.sign_payment to_address amount_units valid_before resource_url nonceHex now
      = ({ w with
            spent_usd := fl (w.spent_usd + a),
            payments := w.payments ++
              [⟨now, to_address, a, amount_units, w.network, nonceHex, sig,
                resource_url⟩] },
         .ok (sig, nonceHex)) := by
  simp only [X402Wallet.sign_payment, hval]
  rw [if_neg (not_not_intro hok), hsig]

/-- Failing `sign_payment` (claim C3's affordability-failure path). -/
theorem sign_payment_fail (w : X402Wallet) (to_address : String)
    (amount_units valid_before : ℤ) (resource_url nonceHex : String) (now : ℚ)
    (h : ¬ w.can_afford (fl (units_to_usd amount_units))) :
    w.sign_payment to_address amount_units valid_before resource_url nonceHex now
      = (w, .error (.budgetExceeded (fl (units_to_usd amount_units))
          w.remaining_usd)) := by
  simp only [X402Wallet.sign_payment]
  rw [if_pos h]

/-- Test private key from the repository's test suite. -/
def pkTest : String :=
  "0xac0974bec39a17e36ba4a6b4d238ff944bacb478cbed5efcae784d7bf4f2ff80"

/-- One `sign_payment` call on a base-sepolia test wallet, with the record
and signature existentially packaged (their exact contents are irrelevant to
the numeric claims). -/
theorem paySep (units : ℤ) (a b s : ℚ) (ps : List PaymentRecord)
    (hval : fl (units_to_usd units) = a)
    (hok : a ≤ max 0 (fl (b - s))) :
    ∃ (p : PaymentRecord) (sig : String),
      X402Wallet.sign_payment ⟨pkTest, "base-sepolia", b, s, ps⟩
          "0xserver" units 9999999999 "u" "n" 0
        = (⟨pkTest, "base-sepolia", b, fl (s + a), ps ++ [p]⟩, .ok (sig, "n")) := by
  refine ⟨⟨0, "0xserver", a, units, "base-sepolia", "n",
      ecSign (normalizeKey pkTest)
        ⟨84532, "0x036CbD53842c5426634e7929541eC2318f3dCF7e",
         get_wallet_address pkTest, "0xserver", units, 0, 9999999999, "n"⟩, "u"⟩,
    ecSign (normalizeKey pkTest)
        ⟨84532, "0x036CbD53842c5426634e7929541eC2318f3dCF7e",
         get_wallet_address pkTest, "0xserver", units, 0, 9999999999, "n"⟩, ?_⟩
  exact sign_payment_ok _ _ _ _ _ _ _ a _ hval hok rfl

theorem dval : fl (units_to_usd 100000) = 3602879701896397/2^55 := by
  have h := units_to_usd_small 100000 (by norm_num) (by norm_num)
  norm_num at h
  rw [h]
  rw [fl_eval_up _ 56 7205759403792793 (by norm_num) (by norm_num) (by norm_num)
    (by norm_num) (by norm_num) (by norm_num)]
  norm_num

theorem halfval : fl (units_to_usd 500000) = 1/2 := by
  have h := units_to_usd_small 500000 (by norm_num) (by norm_num)
  norm_num at h
  rw [h]
  rw [fl_eval_int _ 53 4503599627370496 (by norm_num) (by norm_num) (by norm_num)
    (by norm_num) (by norm_num)]
  norm_num

theorem oneval : fl (units_to_usd 1000000) = 1 := by
  have h := units_to_usd_small 1000000 (by norm_num) (by norm_num)
  norm_num at h
  rw [h]
  rw [fl_eval_int _ 52 4503599627370496 (by norm_num) (by norm_num) (by norm_num)
    (by norm_num) (by norm_num)]
  norm_num

theorem a1val : fl (units_to_usd 1500000) = 3/2 := by
  have h := units_to_usd_small 1500000 (by norm_num) (by norm_num)
  norm_num at h
  rw [h]
  rw [fl_eval_int _ 52 6755399441055744 (by norm_num) (by norm_num) (by norm_num)
    (by norm_num) (by norm_num)]
  norm_num

theorem a2val : fl (units_to_usd 9007199254740990000000) = 9007199254740990 := by
  have h := units_to_usd_small 9007199254740990000000 (by norm_num) (by norm_num)
  norm_num at h
  rw [h]
  rw [fl_eval_int _ 0 9007199254740990 (by norm_num) (by norm_num) (by norm_num)
    (by norm_num) (by norm_num)]
  norm_num

theorem e_r1 : fl ((1:ℚ) - 0) = 1 := by
  rw [show ((1:ℚ) - 0) = 1 by norm_num]
  rw [fl_eval_int _ 52 4503599627370496 (by norm_num) (by norm_num) (by norm_num)
    (by norm_num) (by norm_num)]
  norm_num

theorem e_s1 : fl ((0:ℚ) + 3602879701896397/2^55) = 3602879701896397/2^55 := by
  rw [fl_eval_int _ 56 7205759403792794 (by norm_num) (by norm_num) (by norm_num)
    (by norm_num) (by norm_num)]
  norm_num

theorem e_r2 : fl ((1:ℚ) - 3602879701896397/2^55) = 8106479329266893/2^53 := by
  rw [fl_eval_up _ 53 8106479329266892 (by norm_num) (by norm_num) (by norm_num)
    (by norm_num) (by norm_num) (by norm_num)]
  norm_num

theorem e_s2 : fl ((3602879701896397/2^55 : ℚ) + 3602879701896397/2^55)
    = 3602879701896397/2^54 := by
  rw [fl_eval_int _ 55 7205759403792794 (by norm_num) (by norm_num) (by norm_num)
    (by norm_num) (by norm_num)]
  norm_num

theorem e_r3 : fl ((1:ℚ) - 3602879701896397/2^54) = 3602879701896397/2^52 := by
  rw [fl_eval_tie_odd _ 53 7205759403792793 (by norm_num) (by norm_num) (by norm_num)
    (by norm_num) (by norm_num) (by omega)]
  norm_num

theorem e_s3 : fl ((3602879701896397/2^54 : ℚ) + 3602879701896397/2^55)
    = 5404319552844596/2^54 := by
  rw [fl_eval_tie_odd _ 54 5404319552844595 (by norm_num) (by norm_num) (by norm_num)
    (by norm_num) (by norm_num) (by omega)]
  norm_num

theorem e_r4 : fl ((1:ℚ) - 5404319552844596/2^54) = 6305039478318694/2^53 := by
  rw [fl_eval_int _ 53 6305039478318694 (by norm_num) (by norm_num) (by norm_num)
    (by norm_num) (by norm_num)]
  norm_num

theorem e_rB : fl ((9007199254740991:ℚ) - 0) = 9007199254740991 := by
  rw [show ((9007199254740991:ℚ) - 0) = 9007199254740991 by norm_num]
  rw [fl_eval_int _ 0 9007199254740991 (by norm_num) (by norm_num) (by norm_num)
    (by norm_num) (by norm_num)]
  norm_num

theorem e_sB1 : fl ((0:ℚ) + 3/2) = 3/2 := by
  rw [fl_eval_int _ 52 6755399441055744 (by norm_num) (by norm_num) (by norm_num)
    (by norm_num) (by norm_num)]
  norm_num

theorem e_rB2 : fl ((9007199254740991:ℚ) - 3/2) = 9007199254740990 := by
  rw [fl_eval_tie_odd _ 0 9007199254740989 (by norm_num) (by norm_num) (by norm_num)
    (by norm_num) (by norm_num) (by omega)]
  norm_num

theorem e_sB2 : fl ((3/2:ℚ) + 9007199254740990) = 9007199254740992 := by
  rw [fl_eval_tie_odd _ 0 9007199254740991 (by norm_num) (by norm_num) (by norm_num)
    (by norm_num) (by norm_num) (by omega)]
  norm_num

theorem e_half : fl ((0:ℚ) + 1/2) = 1/2 := by
  rw [fl_eval_int _ 53 4503599627370496 (by norm_num) (by norm_num) (by norm_num)
    (by norm_num) (by norm_num)]
  norm_num

/-- C8: `reset_budget` zeroes the cumulative spend, empties the payment
history, replaces the budget ceiling exactly when a new value is given
(keeping the old ceiling otherwise), and leaves the wallet identity
(address, private key, network) unchanged. -/
theorem C8_reset_budget (w : X402Wallet) (new_budget_usd : Option ℚ) :
    (w.reset_budget new_budget_usd).spent_usd = 0 ∧
    (w.reset_budget new_budget_usd).payments = [] ∧
    (w.reset_budget new_budget_usd).budget_usd = new_budget_usd.getD w.budget_usd ∧
    (w.reset_budget new_budget_usd).address = w.address ∧
    (w.reset_budget new_budget_usd).private_key = w.private_key ∧
    (w.reset_budget new_budget_usd).network = w.network := by
  refine ⟨rfl, rfl, ?_, rfl, rfl, rfl⟩
  cases new_budget_usd <;> rfl

/-- C9: the `payments` accessor returns a freshly allocated copy of the
history; mutating the returned list object in any way leaves the wallet's
own history (and hence its payment count) and its `spent_usd` unchanged. -/
theorem C9_payments_copy (s : WalletHeap)
    (f : List PaymentRecord → List PaymentRecord)
    (halloc : s.paymentsRef < s.next) :
    s.paymentsAcc.1.store s.paymentsAcc.2 = s.store s.paymentsRef ∧
    (s.paymentsAcc.1.mutate s.paymentsAcc.2 f).store s.paymentsRef
      = s.store s.paymentsRef ∧
    ((s.paymentsAcc.1.mutate s.paymentsAcc.2 f).store s.paymentsRef).length
      = (s.store s.paymentsRef).length ∧
    (s.paymentsAcc.1.mutate s.paymentsAcc.2 f).spent_usd = s.spent_usd := by
  have hne : s.paymentsRef ≠ s.next := Nat.ne_of_lt halloc
  refine ⟨?_, ?_, ?_, rfl⟩ <;>
    simp [WalletHeap.paymentsAcc, WalletHeap.mutate, Function.update_apply, hne]

/-- C9 witness: a concrete wallet heap with one allocated list and a
concrete mutation of the returned copy. -/
theorem C9_witness :
    (0 : ℕ) < 1 ∧
    ((⟨5, 0, fun _ => [], 1⟩ : WalletHeap).paymentsAcc.1.store
        (⟨5, 0, fun _ => [], 1⟩ : WalletHeap).paymentsAcc.2
      = (⟨5, 0, fun _ => [], 1⟩ : WalletHeap).store 0 ∧
    ((⟨5, 0, fun _ => [], 1⟩ : WalletHeap).paymentsAcc.1.mutate
        (⟨5, 0, fun _ => [], 1⟩ : WalletHeap).paymentsAcc.2 (fun _ => [])).store 0
      = (⟨5, 0, fun _ => [], 1⟩ : WalletHeap).store 0 ∧
    (((⟨5, 0, fun _ => [], 1⟩ : WalletHeap).paymentsAcc.1.mutate
        (⟨5, 0, fun _ => [], 1⟩ : WalletHeap).paymentsAcc.2 (fun _ => [])).store 0).length
      = ((⟨5, 0, fun _ => [], 1⟩ : WalletHeap).store 0).length ∧
    ((⟨5, 0, fun _ => [], 1⟩ : WalletHeap).paymentsAcc.1.mutate
        (⟨5, 0, fun _ => [], 1⟩ : WalletHeap).paymentsAcc.2 (fun _ => [])).spent_usd
      = (⟨5, 0, fun _ => [], 1⟩ : WalletHeap).spent_usd) :=
  ⟨by norm_num, C9_payments_copy ⟨5, 0, fun _ => [], 1⟩ (fun _ => []) (by norm_num)⟩

/-- C10: the synchronous `_run` and asynchronous `_arun` negotiation paths
return the same result and leave the wallet in the same state for every
initial response and every retried response supplied by the transport. -/
theorem C10_run_arun_equal : ∀ (wallet : X402Wallet) (auto_pay : Bool)
    (url : String) (max_price_usd : Option ℚ)
    (response paidResponse : HttpResponse) (nonceHex : String) (now : ℚ),
    X402PaymentTool.run wallet auto_pay url max_price_usd response paidResponse
      nonceHex now
    = X402PaymentTool.arun wallet auto_pay url max_price_usd response
      paidResponse nonceHex now :=
  fun _ _ _ _ _ _ _ _ => rfl

/-- C3: a `sign_payment` call that fails the affordability check fails with
the budget-exceeded error carrying the needed amount and the remaining
budget, and the wallet state (spend and history) is exactly unchanged. -/
theorem C3_budget_exceeded_no_mutation (w : X402Wallet) (to_address : String)
    (amount_units valid_before : ℤ) (resource_url nonceHex : String) (now : ℚ)
    (h : ¬ w.can_afford (fl (units_to_usd amount_units))) :
    w.sign_payment to_address amount_units valid_before resource_url nonceHex now
      = (w, .error (.budgetExceeded (fl (units_to_usd amount_units))
          w.remaining_usd)) :=
  sign_payment_fail w to_address amount_units valid_before resource_url
    nonceHex now h

/-- C3 witness: a wallet with a zero budget cannot afford a $0.10 payment;
the call fails and returns the wallet unchanged. -/
theorem C3_witness :
    ¬ (⟨pkTest, "base-sepolia", 0, 0, []⟩ : X402Wallet).can_afford
        (fl (units_to_usd 100000)) ∧
    (⟨pkTest, "base-sepolia", 0, 0, []⟩ : X402Wallet).sign_payment
        "0xserver" 100000 9999999999 "u" "n" 0
      = (⟨pkTest, "base-sepolia", 0, 0, []⟩,
         .error (.budgetExceeded (fl (units_to_usd 100000))
           (⟨pkTest, "base-sepolia", 0, 0, []⟩ : X402Wallet).remaining_usd)) := by
  have hno : ¬ (⟨pkTest, "base-sepolia", 0, 0, []⟩ : X402Wallet).can_afford
      (fl (units_to_usd 100000)) := by
    simp only [X402Wallet.can_afford, X402Wallet.remaining_usd]
    rw [dval]
    norm_num [fl_zero]
  exact ⟨hno, C3_budget_exceeded_no_mutation _ "0xserver" 100000 9999999999
    "u" "n" 0 hno⟩

/-- C1 (amended): under exact arithmetic — the binary64 rounding of the
source elided — every `sign_payment` call that starts from a state
satisfying the invariant `spent_usd ≤ budget_usd` preserves it (in
particular every call that returns normally does), and `remaining_usd`
always equals `max 0 (budget_usd - spent_usd)`.  With the source's binary64
accumulation the invariant can fail at extreme magnitudes
(`C1_float_counterexample`). -/
theorem C1_invariant_exact (w : X402Wallet) (to_address : String)
    (amount_units valid_before : ℤ) (resource_url nonceHex : String) (now : ℚ)
    (hinv : w.spent_usd ≤ w.budget_usd) :
    ((w.sign_paymentE to_address amount_units valid_before resource_url
        nonceHex now).1).spent_usd
      ≤ ((w.sign_paymentE to_address amount_units valid_before resource_url
        nonceHex now).1).budget_usd
    ∧ w.remaining_usdE = max 0 (w.budget_usd - w.spent_usd) := by
  refine ⟨?_, rfl⟩
  simp only [X402Wallet.sign_paymentE]
  by_cases hca : w.can_affordE (units_to_usd amount_units)
  · rw [if_neg (not_not_intro hca)]
    simp only [X402Wallet.can_affordE, X402Wallet.remaining_usdE] at hca
    have hmax : max 0 (w.budget_usd - w.spent_usd) = w.budget_usd - w.spent_usd :=
      max_eq_right (by linarith)
    rw [hmax] at hca
    rcases hsig : sign_transfer_authorization w.private_key
        ⟨w.address, to_address, amount_units, 0, valid_before, nonceHex⟩
        w.network with _ | s
    · simpa using hinv
    · simp only [hsig]
      show w.spent_usd + units_to_usd amount_units ≤ w.budget_usd
      linarith
  · rw [if_pos hca]
    exact hinv

/-- C1 witness: a fresh $1 wallet satisfies the invariant and preserves it
through an exact-arithmetic $0.10 payment. -/
theorem C1_witness :
    (⟨pkTest, "base-sepolia", 1, 0, []⟩ : X402Wallet).spent_usd
      ≤ (⟨pkTest, "base-sepolia", 1, 0, []⟩ : X402Wallet).budget_usd ∧
    (((⟨pkTest, "base-sepolia", 1, 0, []⟩ : X402Wallet).sign_paymentE
        "0xserver" 100000 9999999999 "u" "n" 0).1).spent_usd
      ≤ (((⟨pkTest, "base-sepolia", 1, 0, []⟩ : X402Wallet).sign_paymentE
        "0xserver" 100000 9999999999 "u" "n" 0).1).budget_usd ∧
    (⟨pkTest, "base-sepolia", 1, 0, []⟩ : X402Wallet).remaining_usdE
      = max 0 ((⟨pkTest, "base-sepolia", 1, 0, []⟩ : X402Wallet).budget_usd
          - (⟨pkTest, "base-sepolia", 1, 0, []⟩ : X402Wallet).spent_usd) := by
  have h := C1_invariant_exact ⟨pkTest, "base-sepolia", 1, 0, []⟩ "0xserver"
    100000 9999999999 "u" "n" 0 (by norm_num)
  exact ⟨by norm_num, h.1, h.2⟩

/-- Fresh wallet with the largest odd-significand binary64 budget. -/
def bigW0 : X402Wallet := ⟨pkTest, "base-sepolia", 9007199254740991, 0, []⟩

/-- First payment of the C1 scenario: $1.50. -/
def bigCall1 := bigW0.sign_payment "0xserver" 1500000 9999999999 "u" "n" 0

/-- Second payment of the C1 scenario: $9007199254740990. -/
def bigCall2 := bigCall1.1.sign_payment "0xserver" 9007199254740990000000
  9999999999 "u" "n" 0

/-- C1 counterexample: with budget `2^53 - 1` both `sign_payment` calls
return normally (each passes the affordability check against the rounded
remaining budget), yet afterwards the cumulative binary64 spend is `2^53`,
exceeding the budget ceiling — the claimed invariant fails on the code. -/
theorem C1_float_counterexample :
    signSucceeded bigCall1.2 ∧ signSucceeded bigCall2.2 ∧
    bigCall2.1.spent_usd = 9007199254740992 ∧
    bigCall2.1.budget_usd = 9007199254740991 ∧
    bigCall2.1.budget_usd < bigCall2.1.spent_usd := by
  obtain ⟨p1, sig1, h1⟩ := paySep 1500000 (3/2) 9007199254740991 0 [] a1val
    (by rw [e_rB, max_eq_right (by norm_num : (0:ℚ) ≤ 9007199254740991)]; norm_num)
  rw [e_sB1] at h1
  obtain ⟨p2, sig2, h2⟩ := paySep 9007199254740990000000 9007199254740990
    9007199254740991 (3/2) ([] ++ [p1]) a2val
    (by rw [e_rB2, max_eq_right (by norm_num : (0:ℚ) ≤ 9007199254740990)])
  rw [e_sB2] at h2
  have hc1 : bigCall1 = (⟨pkTest, "base-sepolia", 9007199254740991, 3/2,
      [] ++ [p1]⟩, .ok (sig1, "n")) := h1
  have hc2 : bigCall2 = (⟨pkTest, "base-sepolia", 9007199254740991,
      9007199254740992, ([] ++ [p1]) ++ [p2]⟩, .ok (sig2, "n")) := by
    show bigCall1.1.sign_payment "0xserver" 9007199254740990000000
      9999999999 "u" "n" 0 = _
    rw [hc1]
    exact h2
  refine ⟨?_, ?_, ?_, ?_, ?_⟩
  · rw [hc1]; trivial
  · rw [hc2]; trivial
  · rw [hc2]
  · rw [hc2]
  · rw [hc2]; norm_num

/-- Fresh test wallet with a $1.00 budget (the drift scenario of C2). -/
def dimeW0 : X402Wallet := ⟨pkTest, "base-sepolia", 1, 0, []⟩

/-- First $0.10 payment of the C2 scenario. -/
def dimeCall1 := dimeW0.sign_payment "0xserver" 100000 9999999999 "u" "n" 0

/-- Second $0.10 payment of the C2 scenario. -/
def dimeCall2 := dimeCall1.1.sign_payment "0xserver" 100000 9999999999 "u" "n" 0

/-- Third $0.10 payment of the C2 scenario. -/
def dimeCall3 := dimeCall2.1.sign_payment "0xserver" 100000 9999999999 "u" "n" 0

/-- C2: evaluating the code at the failing input.  Three successful $0.10
payments (100000 units each) against a $1.00 budget leave
`_spent_usd = 5404319552844596/2^54` (the binary64 value
`0.30000000000000004...`), not the exact decimal `0.30`, and
`remaining_usd = 6305039478318694/2^53` (the binary64 value
`0.69999999999999995...`), not the exact decimal `B - S = 0.70`:
`sign_payment` coerces the Decimal quotient to a float (wallet.py:149) and
accumulates the spend in binary64, so the claimed exact-decimal equality
`remaining_usd = B - S` fails on the code. -/
theorem C2_float_drift :
    signSucceeded dimeCall1.2 ∧ signSucceeded dimeCall2.2 ∧
    signSucceeded dimeCall3.2 ∧
    dimeCall3.1.spent_usd = 5404319552844596/2^54 ∧
    dimeCall3.1.spent_usd ≠ 3/10 ∧
    dimeCall3.1.remaining_usd = 6305039478318694/2^53 ∧
    dimeCall3.1.remaining_usd ≠ 7/10 := by
  obtain ⟨p1, sig1, h1⟩ := paySep 100000 (3602879701896397/2^55) 1 0 [] dval
    (by rw [e_r1, max_eq_right (by norm_num : (0:ℚ) ≤ 1)]; norm_num)
  rw [e_s1] at h1
  obtain ⟨p2, sig2, h2⟩ := paySep 100000 (3602879701896397/2^55) 1
    (3602879701896397/2^55) ([] ++ [p1]) dval
    (by rw [e_r2, max_eq_right (by norm_num : (0:ℚ) ≤ 8106479329266893/2^53)]
        norm_num)
  rw [e_s2] at h2
  obtain ⟨p3, sig3, h3⟩ := paySep 100000 (3602879701896397/2^55) 1
    (3602879701896397/2^54) (([] ++ [p1]) ++ [p2]) dval
    (by rw [e_r3, max_eq_right (by norm_num : (0:ℚ) ≤ 3602879701896397/2^52)]
        norm_num)
  rw [e_s3] at h3
  have hc1 : dimeCall1 = (⟨pkTest, "base-sepolia", 1, 3602879701896397/2^55,
      [] ++ [p1]⟩, .ok (sig1, "n")) := h1
  have hc2 : dimeCall2 = (⟨pkTest, "base-sepolia", 1, 3602879701896397/2^54,
      ([] ++ [p1]) ++ [p2]⟩, .ok (sig2, "n")) := by
    show dimeCall1.1.sign_payment "0xserver" 100000 9999999999 "u" "n" 0 = _
    rw [hc1]
    exact h2
  have hc3 : dimeCall3 = (⟨pkTest, "base-sepolia", 1, 5404319552844596/2^54,
      (([] ++ [p1]) ++ [p2]) ++ [p3]⟩, .ok (sig3, "n")) := by
    show dimeCall2.1.sign_payment "0xserver" 100000 9999999999 "u" "n" 0 = _
    rw [hc2]
    exact h3
  have hrem : dimeCall3.1.remaining_usd = 6305039478318694/2^53 := by
    rw [hc3]
    show max 0 (fl ((1:ℚ) - 5404319552844596/2^54)) = _
    rw [e_r4, max_eq_right (by norm_num : (0:ℚ) ≤ 6305039478318694/2^53)]
  refine ⟨?_, ?_, ?_, ?_, ?_, hrem, ?_⟩
  · rw [hc1]; trivial
  · rw [hc2]; trivial
  · rw [hc3]; trivial
  · rw [hc3]
  · rw [hc3]; norm_num
  · rw [hrem]; norm_num

theorem dnorm_step_down (f : ℕ) (m : ℚ) (e : ℤ) (h1 : ¬ m < 10^27)
    (h2 : 10^28 ≤ m) : dnorm (f+1) m e = dnorm f (m/10) (e+1) := by
  rw [dnorm, if_neg h1, if_pos h2]

/-- `units_to_usd` at `10^28 + 1` units: the exact quotient needs 29
significant digits, so the Decimal division rounds it to `10^22`. -/
theorem u2u_big : units_to_usd (10^28+1) = 10^22 := by
  unfold units_to_usd
  rw [show (((10^28+1 : ℤ)) : ℚ) = (10:ℚ)^28+1 by push_cast; ring]
  rw [round28_eval _ 5 (by norm_num) (by positivity) (by norm_num) (by norm_num)]
  rw [roundHalfEven_of_lt _ (10^27) (by push_cast; norm_num)
    (by push_cast; norm_num)]
  push_cast
  norm_num

/-- The Decimal product `10^22 * 10^6` is exact (1 significant digit). -/
theorem r28_pow28 : round28 ((10:ℚ)^28) = 10^28 := by
  rw [round28, if_neg (by norm_num), if_neg (by norm_num), round28pos]
  rw [show (1200:ℕ) = 1199+1 by norm_num]
  rw [dnorm_step_down 1199 _ _ (by norm_num) (by norm_num)]
  rw [show ((10:ℚ)^28 / 10) = (10:ℚ)^27 * 10^0 by norm_num]
  rw [dnorm_reach 0 1199 ((10:ℚ)^27 * 10^0) (0+1) (by norm_num) (by norm_num)
    (by norm_num) (by norm_num)]
  rw [show ((10:ℚ)^27 * 10^0 * 10^0) = (((10^27 : ℤ)):ℚ) by push_cast; norm_num]
  rw [roundHalfEven_intCast]
  rw [show ((0:ℤ)+1-(0:ℕ)) = (1:ℤ) by norm_num]
  rw [zpow_one]
  push_cast
  norm_num

/-- C4 counterexample: the round trip `usd_to_units ∘ units_to_usd` loses
`u = 10^28 + 1` (29 significant digits exceed the Decimal context's 28):
the claim as stated over all non-negative integers is false. -/
theorem C4_roundtrip_counterexample :
    usd_to_units (units_to_usd (10^28+1)) = 10^28 ∧ (10^28 : ℤ) ≠ 10^28+1 := by
  constructor
  · rw [u2u_big]
    unfold usd_to_units
    rw [show ((10:ℚ)^22 * 10^6) = (10:ℚ)^28 by norm_num]
    rw [r28_pow28]
    unfold ratTrunc
    rw [if_neg (by norm_num)]
    rw [show ((10:ℚ)^28) = (((10^28:ℤ)):ℚ) by push_cast; ring, Int.floor_intCast]
  · norm_num

/-- C4 (amended): both unit-conversion round trips are exact for every value
within the Decimal context's 28-significant-digit precision:
`units_to_usd (usd_to_units (n/10^6)) = n/10^6` and
`usd_to_units (units_to_usd n) = n` for all `0 ≤ n < 10^28`.  Beyond that
precision the division rounds and the round trip fails
(`C4_roundtrip_counterexample`). -/
theorem C4_roundtrip_within_precision (n : ℕ) (h28 : n < 10^28) :
    units_to_usd (usd_to_units ((n:ℚ)/10^6)) = (n:ℚ)/10^6 ∧
    usd_to_units (units_to_usd (n : ℤ)) = (n : ℤ) := by
  rcases Nat.eq_zero_or_pos n with hz | hp
  · subst hz
    constructor
    · norm_num [usd_to_units, units_to_usd, round28_zero, ratTrunc]
    · norm_num [usd_to_units, units_to_usd, round28_zero, ratTrunc]
  · have hself : round28 ((n:ℚ)) = (n:ℚ) := by
      have h := round28_eq_self n 0 hp h28 (by norm_num)
      simpa using h
    have hu2u : units_to_usd (n:ℤ) = (n:ℚ)/10^6 := units_to_usd_small n hp h28
    have hunits : usd_to_units ((n:ℚ)/10^6) = (n:ℤ) := by
      unfold usd_to_units
      rw [show ((n:ℚ)/10^6 * 10^6) = (n:ℚ) by field_simp]
      rw [hself]
      unfold ratTrunc
      rw [if_neg (not_lt.mpr (by positivity))]
      rw [show ((n:ℚ)) = (((n:ℤ)):ℚ) by push_cast; ring, Int.floor_intCast]
    exact ⟨by rw [hunits, hu2u], by rw [hu2u, hunits]⟩

/-- C4 witness: the round trips are exact at `n = 100000` ($0.10). -/
theorem C4_witness :
    (100000 : ℕ) < 10^28 ∧
    (units_to_usd (usd_to_units (((100000:ℕ):ℚ)/10^6)) = ((100000:ℕ):ℚ)/10^6 ∧
     usd_to_units (units_to_usd ((100000:ℕ) : ℤ)) = ((100000:ℕ) : ℤ)) :=
  ⟨by norm_num, C4_roundtrip_within_precision 100000 (by norm_num)⟩

/-- Negotiation path that reaches signing: all guards pass and the wallet
signs, so the outcome is decided by the retried response's status. -/
theorem run_signed (wallet : X402Wallet) (url : String)
    (max_price_usd : Option ℚ) (response paidResponse : HttpResponse)
    (nonceHex : String) (now : ℚ) (req : PaymentRequirement)
    (w2 : X402Wallet) (s : String × String)
    (h402 : response.status = 402)
    (hhdr : response.paymentRequired = some (some req))
    (hnet : ¬ (req.network.getD "" ≠ "" ∧ req.network.getD "" ≠ wallet.network))
    (hprice : ¬ (effective_max wallet max_price_usd
        < fl (units_to_usd (req.maxAmountRequired.getD 0))))
    (hafford : wallet.can_afford (fl (units_to_usd (req.maxAmountRequired.getD 0))))
    (hsig : wallet.sign_payment (req.payTo.getD "") (req.maxAmountRequired.getD 0)
        (req.validUntil.getD 0) url nonceHex now = (w2, .ok s)) :
    X402PaymentTool.run wallet true url max_price_usd response paidResponse
        nonceHex now
      = (if 400 ≤ paidResponse.status
          then .postPaymentError paidResponse.status paidResponse.text
          else .ok paidResponse.text, w2) := by
  simp only [X402PaymentTool.run, h402, hhdr, ne_eq, not_true_eq_false,
    if_neg hnet, if_neg hprice, if_neg (not_not_intro hafford), hsig,
    not_true, ite_false, if_false]
  split <;> rfl

/-- C5 (amended): the effective price ceiling is the caller-supplied
per-call maximum when one is given and non-zero; when it is absent — or
zero, which Python's `or` treats as absent — the ceiling is the wallet's
current remaining budget.  Whenever the required amount exceeds this
ceiling the negotiation terminates with the price-rejected result, no
signing occurs, and the wallet state is unchanged. -/
theorem C5_price_ceiling (wallet : X402Wallet) (auto_pay : Bool) (url : String)
    (max_price_usd : Option ℚ) (response paidResponse : HttpResponse)
    (nonceHex : String) (now : ℚ) (req : PaymentRequirement)
    (h402 : response.status = 402)
    (hhdr : response.paymentRequired = some (some req))
    (hnet : ¬ (req.network.getD "" ≠ "" ∧ req.network.getD "" ≠ wallet.network))
    (hover : effective_max wallet max_price_usd
      < fl (units_to_usd (req.maxAmountRequired.getD 0))) :
    X402PaymentTool.run wallet auto_pay url max_price_usd response paidResponse
        nonceHex now
      = (.priceRejected (fl (units_to_usd (req.maxAmountRequired.getD 0)))
          (effective_max wallet max_price_usd) req.payTo, wallet) ∧
    (∀ m : ℚ, m ≠ 0 → effective_max wallet (some m) = m) ∧
    effective_max wallet (some 0) = wallet.remaining_usd ∧
    effective_max wallet none = wallet.remaining_usd := by
  refine ⟨?_, ?_, ?_, ?_⟩
  · simp only [X402PaymentTool.run, h402, hhdr, ne_eq, not_true_eq_false,
      if_neg hnet, if_pos hover, ite_false, if_false]
  · intro m hm
    simp [effective_max, hm]
  · simp [effective_max]
  · simp [effective_max]

/-- Requirement of the tool scenarios: $0.50 to `0xserver`. -/
def reqHalf : PaymentRequirement :=
  ⟨none, none, none, some "0xserver", some 500000, some 9999999999⟩

/-- A 402 challenge carrying a given requirement. -/
def resp402of (r : PaymentRequirement) : HttpResponse := ⟨402, "", some (some r)⟩

/-- Requirement of the C5 witness: $1.00 to `0xserver`. -/
def reqOne : PaymentRequirement :=
  ⟨none, none, none, some "0xserver", some 1000000, some 9999999999⟩

/-- C5 witness: a $1.00 requirement against a caller ceiling of $0.50 is
price-rejected with the wallet untouched. -/
theorem C5_witness :
    (resp402of reqOne).status = 402 ∧
    (resp402of reqOne).paymentRequired = some (some reqOne) ∧
    ¬ (reqOne.network.getD "" ≠ "" ∧ reqOne.network.getD "" ≠ dimeW0.network) ∧
    effective_max dimeW0 (some (1/2))
      < fl (units_to_usd (reqOne.maxAmountRequired.getD 0)) ∧
    X402PaymentTool.run dimeW0 true "u" (some (1/2)) (resp402of reqOne)
        ⟨200, "ok", none⟩ "n" 0
      = (.priceRejected (fl (units_to_usd (reqOne.maxAmountRequired.getD 0)))
          (effective_max dimeW0 (some (1/2))) reqOne.payTo, dimeW0) := by
  have hover : effective_max dimeW0 (some (1/2))
      < fl (units_to_usd (reqOne.maxAmountRequired.getD 0)) := by
    rw [show reqOne.maxAmountRequired.getD 0 = 1000000 from rfl, oneval]
    norm_num [effective_max]
  exact ⟨rfl, rfl, by simp [reqOne], hover,
    (C5_price_ceiling dimeW0 true "u" (some (1/2)) (resp402of reqOne)
      ⟨200, "ok", none⟩ "n" 0 reqOne rfl rfl (by simp [reqOne]) hover).1⟩

/-- The C5 counterexample run: caller-supplied maximum of 0, $0.50
requirement, $1.00 wallet. -/
def zeroMaxRun := X402PaymentTool.run dimeW0 true "u" (some 0)
  (resp402of reqHalf) ⟨200, "paid", none⟩ "n" 0

/-- C5 counterexample: with an explicitly given per-call maximum of `0` the
claim predicts a price-rejected terminal result (amount $0.50 > ceiling 0)
with no state change; the code instead treats `0` as absent (Python `or`),
pays, and mutates the wallet. -/
theorem C5_zero_max_counterexample :
    zeroMaxRun.1 = .ok "paid" ∧ zeroMaxRun.2.spent_usd = 1/2 ∧
    zeroMaxRun.2.spent_usd ≠ 0 := by
  obtain ⟨p1, sig1, h1⟩ := paySep 500000 (1/2) 1 0 [] halfval
    (by rw [e_r1, max_eq_right (by norm_num : (0:ℚ) ≤ 1)]; norm_num)
  rw [e_half] at h1
  have hrun : zeroMaxRun = (.ok "paid",
      ⟨pkTest, "base-sepolia", 1, 1/2, [] ++ [p1]⟩) := by
    show X402PaymentTool.run dimeW0 true "u" (some 0) (resp402of reqHalf)
      ⟨200, "paid", none⟩ "n" 0 = _
    rw [run_signed dimeW0 "u" (some 0) (resp402of reqHalf) ⟨200, "paid", none⟩
      "n" 0 reqHalf ⟨pkTest, "base-sepolia", 1, 1/2, [] ++ [p1]⟩ (sig1, "n")
      rfl rfl (by simp [reqHalf])
      (by rw [show reqHalf.maxAmountRequired.getD 0 = 500000 from rfl, halfval]
          show ¬ (effective_max dimeW0 (some 0) < 1/2)
          simp only [effective_max, if_pos rfl]
          show ¬ (max 0 (fl ((1:ℚ) - 0)) < 1/2)
          rw [e_r1, max_eq_right (by norm_num : (0:ℚ) ≤ 1)]
          norm_num)
      (by show fl (units_to_usd (reqHalf.maxAmountRequired.getD 0))
            ≤ dimeW0.remaining_usd
          rw [show reqHalf.maxAmountRequired.getD 0 = 500000 from rfl, halfval]
          show (1/2 : ℚ) ≤ max 0 (fl ((1:ℚ) - 0))
          rw [e_r1, max_eq_right (by norm_num : (0:ℚ) ≤ 1)]
          norm_num)
      h1]
    rw [if_neg (by norm_num : ¬ (400 ≤ 200))]
  refine ⟨by rw [hrun], by rw [hrun], by rw [hrun]; norm_num⟩

/-- C6 (amended): when the decoded requirement carries a network identifier
that is present, non-empty, and different from the wallet's configured
network, the negotiation terminates with the network-mismatch result, no
signature is produced, and the wallet state is unchanged.  (An empty-string
identifier is treated by the code as absent — Python truthiness — see
`C6_empty_network_counterexample`.) -/
theorem C6_network_mismatch (wallet : X402Wallet) (auto_pay : Bool)
    (url : String) (max_price_usd : Option ℚ)
    (response paidResponse : HttpResponse) (nonceHex : String) (now : ℚ)
    (req : PaymentRequirement) (n : String)
    (h402 : response.status = 402)
    (hhdr : response.paymentRequired = some (some req))
    (hn : req.network = some n) (hne : n ≠ "") (hnw : n ≠ wallet.network) :
    X402PaymentTool.run wallet auto_pay url max_price_usd response paidResponse
        nonceHex now
      = (.networkMismatch n wallet.network, wallet) := by
  simp only [X402PaymentTool.run, h402, hhdr, hn, ne_eq, not_true_eq_false,
    ite_false, if_false, Option.getD_some]
  rw [if_pos ⟨hne, hnw⟩]

/-- Requirement naming a different (supported) network than the wallet's. -/
def reqMainnet : PaymentRequirement :=
  ⟨none, none, some "base-mainnet", some "0xserver", some 500000,
   some 9999999999⟩

/-- C6 witness: a base-mainnet requirement against the base-sepolia wallet
terminates with the network-mismatch result and an unchanged wallet. -/
theorem C6_witness :
    (resp402of reqMainnet).status = 402 ∧
    (resp402of reqMainnet).paymentRequired = some (some reqMainnet) ∧
    reqMainnet.network = some "base-mainnet" ∧
    "base-mainnet" ≠ "" ∧ "base-mainnet" ≠ dimeW0.network ∧
    X402PaymentTool.run dimeW0 true "u" none (resp402of reqMainnet)
        ⟨200, "ok", none⟩ "n" 0
      = (.networkMismatch "base-mainnet" dimeW0.network, dimeW0) :=
  ⟨rfl, rfl, rfl, by decide, by decide,
    C6_network_mismatch dimeW0 true "u" none (resp402of reqMainnet)
      ⟨200, "ok", none⟩ "n" 0 reqMainnet "base-mainnet" rfl rfl rfl
      (by decide) (by decide)⟩

/-- Requirement whose network field is present but the empty string. -/
def reqEmptyNet : PaymentRequirement :=
  ⟨none, none, some "", some "0xserver", some 500000, some 9999999999⟩

/-- The C6 counterexample run: requirement network present (`""`) and
different from the wallet's network. -/
def emptyNetRun := X402PaymentTool.run dimeW0 true "u" none
  (resp402of reqEmptyNet) ⟨200, "paid", none⟩ "n" 0

/-- C6 counterexample: the requirement's network is present (`some ""`) and
differs from the wallet's configured network, yet the negotiation does not
terminate with a network-mismatch result: Python truthiness skips the check
for an empty string, a payment is signed and the wallet mutated. -/
theorem C6_empty_network_counterexample :
    reqEmptyNet.network = some "" ∧ "" ≠ dimeW0.network ∧
    emptyNetRun.1 = .ok "paid" ∧ emptyNetRun.2.spent_usd = 1/2 ∧
    emptyNetRun.2.spent_usd ≠ 0 := by
  obtain ⟨p1, sig1, h1⟩ := paySep 500000 (1/2) 1 0 [] halfval
    (by rw [e_r1, max_eq_right (by norm_num : (0:ℚ) ≤ 1)]; norm_num)
  rw [e_half] at h1
  have hrun : emptyNetRun = (.ok "paid",
      ⟨pkTest, "base-sepolia", 1, 1/2, [] ++ [p1]⟩) := by
    show X402PaymentTool.run dimeW0 true "u" none (resp402of reqEmptyNet)
      ⟨200, "paid", none⟩ "n" 0 = _
    rw [run_signed dimeW0 "u" none (resp402of reqEmptyNet) ⟨200, "paid", none⟩
      "n" 0 reqEmptyNet ⟨pkTest, "base-sepolia", 1, 1/2, [] ++ [p1]⟩ (sig1, "n")
      rfl rfl (by simp [reqEmptyNet])
      (by rw [show reqEmptyNet.maxAmountRequired.getD 0 = 500000 from rfl,
            halfval]
          show ¬ (max 0 (fl ((1:ℚ) - 0)) < 1/2)
          rw [e_r1, max_eq_right (by norm_num : (0:ℚ) ≤ 1)]
          norm_num)
      (by show fl (units_to_usd (reqEmptyNet.maxAmountRequired.getD 0))
            ≤ dimeW0.remaining_usd
          rw [show reqEmptyNet.maxAmountRequired.getD 0 = 500000 from rfl,
            halfval]
          show (1/2 : ℚ) ≤ max 0 (fl ((1:ℚ) - 0))
          rw [e_r1, max_eq_right (by norm_num : (0:ℚ) ≤ 1)]
          norm_num)
      h1]
    rw [if_neg (by norm_num : ¬ (400 ≤ 200))]
  exact ⟨rfl, by decide, by rw [hrun], by rw [hrun], by rw [hrun]; norm_num⟩

/-- C7: when the negotiation has signed a payment and the retried request
comes back with status ≥ 400, the outcome is the post-payment error carrying
that status and body, while the payment remains recorded in the wallet: the
spend was incremented and the payment record appended, and nothing is
rolled back. -/
theorem C7_post_payment_error (wallet : X402Wallet) (url : String)
    (max_price_usd : Option ℚ) (response paidResponse : HttpResponse)
    (nonceHex : String) (now : ℚ) (req : PaymentRequirement) (sig : String)
    (h402 : response.status = 402)
    (hhdr : response.paymentRequired = some (some req))
    (hnet : ¬ (req.network.getD "" ≠ "" ∧ req.network.getD "" ≠ wallet.network))
    (hprice : ¬ (effective_max wallet max_price_usd
        < fl (units_to_usd (req.maxAmountRequired.getD 0))))
    (hafford : wallet.can_afford (fl (units_to_usd (req.maxAmountRequired.getD 0))))
    (hsig : sign_transfer_authorization wallet.private_key
        ⟨wallet.address, req.payTo.getD "", req.maxAmountRequired.getD 0, 0,
         req.validUntil.getD 0, nonceHex⟩ wallet.network = some sig)
    (hpaid : 400 ≤ paidResponse.status) :
    X402PaymentTool.run wallet true url max_price_usd response paidResponse
        nonceHex now
      = (.postPaymentError paidResponse.status paidResponse.text,
         { wallet with
            spent_usd := fl (wallet.spent_usd
              + fl (units_to_usd (req.maxAmountRequired.getD 0))),
            payments := wallet.payments ++
              [⟨now, req.payTo.getD "",
                fl (units_to_usd (req.maxAmountRequired.getD 0)),
                req.maxAmountRequired.getD 0, wallet.network, nonceHex, sig,
                url⟩] }) := by
  have hsp := sign_payment_ok wallet (req.payTo.getD "")
    (req.maxAmountRequired.getD 0) (req.validUntil.getD 0) url nonceHex now
    (fl (units_to_usd (req.maxAmountRequired.getD 0))) sig rfl hafford hsig
  rw [run_signed wallet url max_price_usd response paidResponse nonceHex now req
    _ _ h402 hhdr hnet hprice hafford hsp]
  rw [if_pos hpaid]

/-- C7 witness: a $0.50 payment whose retried request returns 403 yields the
post-payment error while the spend and record stay in the wallet. -/
theorem C7_witness :
    (resp402of reqHalf).status = 402 ∧
    (resp402of reqHalf).paymentRequired = some (some reqHalf) ∧
    ¬ (reqHalf.network.getD "" ≠ "" ∧ reqHalf.network.getD "" ≠ dimeW0.network) ∧
    ¬ (effective_max dimeW0 none
        < fl (units_to_usd (reqHalf.maxAmountRequired.getD 0))) ∧
    dimeW0.can_afford (fl (units_to_usd (reqHalf.maxAmountRequired.getD 0))) ∧
    (400 : ℕ) ≤ (⟨403, "denied", none⟩ : HttpResponse).status ∧
    X402PaymentTool.run dimeW0 true "u" none (resp402of reqHalf)
        ⟨403, "denied", none⟩ "n" 0
      = (.postPaymentError (⟨403, "denied", none⟩ : HttpResponse).status
          (⟨403, "denied", none⟩ : HttpResponse).text,
         { dimeW0 with
            spent_usd := fl (dimeW0.spent_usd
              + fl (units_to_usd (reqHalf.maxAmountRequired.getD 0))),
            payments := dimeW0.payments ++
              [⟨0, reqHalf.payTo.getD "",
                fl (units_to_usd (reqHalf.maxAmountRequired.getD 0)),
                reqHalf.maxAmountRequired.getD 0, dimeW0.network, "n",
                ecSign (normalizeKey pkTest)
                  ⟨84532, "0x036CbD53842c5426634e7929541eC2318f3dCF7e",
                   get_wallet_address pkTest, "0xserver", 500000, 0,
                   9999999999, "n"⟩,
                "u"⟩] }) := by
  have hprice : ¬ (effective_max dimeW0 none
      < fl (units_to_usd (reqHalf.maxAmountRequired.getD 0))) := by
    rw [show reqHalf.maxAmountRequired.getD 0 = 500000 from rfl, halfval]
    show ¬ (max 0 (fl ((1:ℚ) - 0)) < 1/2)
    rw [e_r1, max_eq_right (by norm_num : (0:ℚ) ≤ 1)]
    norm_num
  have hafford : dimeW0.can_afford
      (fl (units_to_usd (reqHalf.maxAmountRequired.getD 0))) := by
    show fl (units_to_usd (reqHalf.maxAmountRequired.getD 0))
      ≤ dimeW0.remaining_usd
    rw [show reqHalf.maxAmountRequired.getD 0 = 500000 from rfl, halfval]
    show (1/2 : ℚ) ≤ max 0 (fl ((1:ℚ) - 0))
    rw [e_r1, max_eq_right (by norm_num : (0:ℚ) ≤ 1)]
    norm_num
  exact ⟨rfl, rfl, by simp [reqHalf], hprice, hafford, by norm_num,
    C7_post_payment_error dimeW0 "u" none (resp402of reqHalf)
      ⟨403, "denied", none⟩ "n" 0 reqHalf _ rfl rfl (by simp [reqHalf])
      hprice hafford rfl (by norm_num)⟩
